import Mathlib

/-!
Verification of the abrt CLI report module (`src/cli/report.cpp`) and the
user-settings store (`src/lib/user_settings.c`).

C strings are modelled as `List Char` (a C string never contains an embedded
NUL, so the list holds exactly the characters before the terminator).  Each
Lean definition is a direct transcription of the corresponding C function;
stateful C code is rendered as explicit state passing.
-/

/-- Characters of a Lean string literal, used to transcribe C string literals. -/
def str (s : String) : List Char := s.data

/-- C `isspace` in the default locale. -/
def isspace (c : Char) : Bool :=
  c == ' ' || c == '\t' || c == '\n' || c == '\x0b' || c == '\x0c' || c == '\r'

/-- `trim` from report.cpp: removes leading and trailing whitespace
(`skip_whitespace` from the front, then trailing `isspace` characters). -/
def trim (s : List Char) : List Char :=
  ((s.dropWhile isspace).reverse.dropWhile isspace).reverse

/-- `*p == '#'` for a pointer one past the current character (`false` at the
NUL terminator, i.e. at the end of the list). -/
def headHash : List Char → Bool
  | [] => false
  | c :: _ => c == '#'

/-- The escape test of `escape` at a start-of-line position:
`*src == '#'`, or `*src == '\\' && *(src+1) == '#'`. -/
def escNeeded (c : Char) (rest : List Char) : Bool :=
  c == '#' || (c == '\\' && headHash rest)

/-- Scanner of `escape` from report.cpp: `nl` is the C local `newline`
(true at the start of the string and right after each `'\n'`).  At such a
position a `'#'`, or a `'\\'` followed by `'#'`, gets one extra leading
`'\\'`; every character is then copied and the state updated. -/
def escapeAux : Bool → List Char → List Char
  | _, [] => []
  | nl, c :: cs =>
    (if nl && escNeeded c cs then ['\\'] else []) ++ c :: escapeAux (c == '\n') cs

/-- `escape` from report.cpp (the scan starts with `newline = true`). -/
def escape (s : List Char) : List Char := escapeAux true s

/-- The unescape test of `remove_comments_and_unescape` at start of line,
applied to the tail after the current `'\\'`:
`src[1] == '#' || (src[1] == '\\' && src[2] == '#')`. -/
def isEscSeq : List Char → Bool
  | [] => false
  | c1 :: rest => c1 == '#' || (c1 == '\\' && headHash rest)

mutual

/-- Scanner of `remove_comments_and_unescape` from report.cpp: at a
start-of-line position a `'#'` starts a comment line which is skipped whole
(including its newline); a `'\\'` followed by `'#'` or by `"\\#"` is dropped
(one level of unescaping); every other character is copied verbatim. -/
def rcauAux : Bool → List Char → List Char
  | _, [] => []
  | nl, c :: cs =>
    if nl then
      if c == '#' then rcauSkip cs
      else if c == '\\' && isEscSeq cs then
        match cs with
        | [] => []
        | d :: ds => d :: rcauAux (d == '\n') ds
      else c :: rcauAux (c == '\n') cs
    else c :: rcauAux (c == '\n') cs

/-- The comment-skipping inner loop of `remove_comments_and_unescape`:
advance to the next `'\n'` (consuming it) and resume at start of line;
reaching the end of the string ends the whole scan. -/
def rcauSkip : List Char → List Char
  | [] => []
  | c :: cs => if c == '\n' then rcauAux true cs else rcauSkip cs

end

/-- `remove_comments_and_unescape` from report.cpp (starts at line start). -/
def remove_comments_and_unescape (s : List Char) : List Char := rcauAux true s

/-- Comment injection as performed by the renderer: a list of comment lines
(each starting with `'#'`, none containing a newline) is prepended, each
terminated by `'\n'`, before the escaped field body. -/
def inject_comments (comments : List (List Char)) (body : List Char) : List Char :=
  (comments.map (fun k => k ++ ['\n'])).flatten ++ body

/-- Recognizes a start-of-line position whose next characters are
`'\\' '\\' '#'` — the one pattern `escape` leaves untouched but
`remove_comments_and_unescape` still unescapes. -/
def isBadStart : List Char → Bool
  | c1 :: c2 :: rest => c1 == '\\' && c2 == '\\' && headHash rest
  | _ => false

/-- A content is round-trip safe when no line of it begins with `"\\\\#"`
(two backslashes then a hash); `nl` carries the start-of-line state. -/
def okContent : Bool → List Char → Bool
  | _, [] => true
  | nl, c :: cs => (!(nl && isBadStart (c :: cs))) && okContent (c == '\n') cs

/-! ### Crash data model -/

/-- Flag bits of a crash item (`CD_FLAG_*`): `sys` is `CD_FLAG_SYS`
(system value), `iseditable` is `CD_FLAG_ISEDITABLE`, `txt` is
`CD_FLAG_TXT` (text content, orthogonal to the claims here). -/
structure cd_flags where
  sys : Bool
  iseditable : Bool
  txt : Bool
deriving DecidableEq, Repr

/-- `struct crash_item`: content string plus flag bits. -/
structure crash_item where
  content : List Char
  flags : cd_flags
deriving DecidableEq, Repr

/-- `crash_data_t`: table of named crash items, modelled as an association
list from field name to item. -/
abbrev crash_data_t := List (List Char × crash_item)

/-- `get_crash_data_item_or_NULL`: lookup of a field in the crash data. -/
def get_crash_data_item_or_NULL : crash_data_t → List Char → Option crash_item
  | [], _ => none
  | (k, v) :: t, field =>
    if k = field then some v else get_crash_data_item_or_NULL t field

/-- `get_crash_item_content_or_NULL`: content of a field, when present. -/
def get_crash_item_content_or_NULL (cd : crash_data_t) (field : List Char) :
    Option (List Char) :=
  (get_crash_data_item_or_NULL cd field).map crash_item.content

/-- Modelled from the spec: the well-known field-name constants
(`FILENAME_*`, `CD_EVENTS`) are defined in headers outside `src/`; the
claims only need them as fixed, pairwise distinct identifiers. -/
def FILENAME_COMMENT : List Char := str "comment"

def FILENAME_REPRODUCE : List Char := str "reproduce"

def FILENAME_BACKTRACE : List Char := str "backtrace"

def FILENAME_DUPHASH : List Char := str "duphash"

def FILENAME_ARCHITECTURE : List Char := str "architecture"

def FILENAME_CMDLINE : List Char := str "cmdline"

def FILENAME_COMPONENT : List Char := str "component"

def FILENAME_COREDUMP : List Char := str "coredump"

def FILENAME_EXECUTABLE : List Char := str "executable"

def FILENAME_KERNEL : List Char := str "kernel"

def FILENAME_PACKAGE : List Char := str "package"

def FILENAME_REASON : List Char := str "reason"

def FILENAME_RELEASE : List Char := str "release"

def FILENAME_RATING : List Char := str "rating"

def CD_EVENTS : List Char := str "Events"

/-- `FIELD_SEP` from report.cpp. -/
def FIELD_SEP : List Char := str "%----"

/-! ### ReportDocument: render (`write_crash_report`) -/

/-- `write_crash_report_field` from report.cpp: the text this call appends
to the file.  A missing field emits nothing; a field flagged `CD_FLAG_SYS`
emits nothing (an error message is printed and the function returns);
otherwise the block is the `%----<field>` marker line, the description,
the read-only comment when `CD_FLAG_ISEDITABLE` is unset, and the escaped
content followed by a newline. -/
def write_crash_report_field (crash_data : crash_data_t)
    (field description : List Char) : List Char :=
  match get_crash_data_item_or_NULL crash_data field with
  | none => []
  | some value =>
    if value.flags.sys then []
    else
      FIELD_SEP ++ field ++ ['\n']
        ++ description ++ ['\n']
        ++ (if !value.flags.iseditable then str "# This field is read only\n" else [])
        ++ escape value.content ++ ['\n']

/-- The fixed header `write_crash_report` prints before all field blocks. -/
def report_header : List Char :=
  str "# Please check this report. Lines starting with '#' will be ignored.\n"
    ++ str "# Lines starting with '%----' separate fields, please do not delete them.\n\n"

/-- The fixed, hard-coded ordered list of well-known fields with their
descriptions as written out by `write_crash_report`. -/
def report_fields : List (List Char × List Char) :=
  [ (FILENAME_COMMENT, str "# Describe the circumstances of this crash below")
  , (FILENAME_REPRODUCE, str "# How to reproduce the crash?")
  , (FILENAME_BACKTRACE,
     str "# Backtrace\n# Check that it does not contain any sensitive data (passwords, etc.)")
  , (FILENAME_DUPHASH, str "# DUPHASH")
  , (FILENAME_ARCHITECTURE, str "# Architecture")
  , (FILENAME_CMDLINE, str "# Command line")
  , (FILENAME_COMPONENT, str "# Component")
  , (FILENAME_COREDUMP, str "# Core dump")
  , (FILENAME_EXECUTABLE, str "# Executable")
  , (FILENAME_KERNEL, str "# Kernel version")
  , (FILENAME_PACKAGE, str "# Package")
  , (FILENAME_REASON, str "# Reason of crash")
  , (FILENAME_RELEASE, str "# Release string of the operating system") ]

/-- `write_crash_report` from report.cpp: the header followed by the field
blocks in the fixed order. -/
def write_crash_report (report : crash_data_t) : List Char :=
  report_header
    ++ (report_fields.map
          (fun fd => write_crash_report_field report fd.1 fd.2)).flatten

/-! ### ReportDocument: apply (`read_crash_report`) -/

/-- C `strstr`: the suffix of `hay` starting at the first occurrence of
`pat`, or `none` when `pat` does not occur. -/
def strstr : List Char → List Char → Option (List Char)
  | hay, pat =>
    if pat.isPrefixOf hay then some hay
    else match hay with
      | [] => none
      | _ :: t => strstr t pat

/-- The in-place content replacement `value->content = xstrdup(newvalue)`
performed by `read_crash_report_field` on a changed field: the entry (or
entries) of the table keyed `field` get the new content, all other
entries are untouched. -/
def update_crash_item_content (report : crash_data_t)
    (field newvalue : List Char) : crash_data_t :=
  report.map (fun kv =>
    if kv.1 = field then (kv.1, { kv.2 with content := newvalue }) else kv)

/-- `read_crash_report_field` from report.cpp: locate
`"\n%----<field>\n"` in the text, take everything up to the next
`"\n%----"` (or the end) as the new field body, trim it, and compare with
the trimmed current content; fields that are absent from the text or the
report, `SYS`-flagged, or not `ISEDITABLE` are left alone with result 0;
otherwise on a difference the content is replaced by the trimmed body and
the result is 1.  Returns the C return value paired with the updated
report. -/
def read_crash_report_field (text : List Char) (report : crash_data_t)
    (field : List Char) : Nat × crash_data_t :=
  let separator := '\n' :: (FIELD_SEP ++ field ++ ['\n'])
  match strstr text separator with
  | none => (0, report)
  | some suffix =>
    let textfield := suffix.drop separator.length
    let length := match strstr textfield ('\n' :: FIELD_SEP) with
      | none => textfield.length
      | some e => textfield.length - e.length
    match get_crash_data_item_or_NULL report field with
    | none => (0, report)
    | some value =>
      if value.flags.sys then (0, report)
      else if !value.flags.iseditable then (0, report)
      else
        let newvalue := trim (textfield.take length)
        let oldvalue := trim value.content
        if newvalue = oldvalue then (0, report)
        else
          (1, update_crash_item_content report field newvalue)

/-- The accumulation in `read_crash_report`: each
`result |= read_crash_report_field(...)` call ORs the per-field result
into the accumulator and threads the updated report. -/
def read_crash_report_loop (text : List Char)
    (fields : List (List Char × List Char)) (acc : Nat × crash_data_t) :
    Nat × crash_data_t :=
  fields.foldl
    (fun acc fd =>
      let r := read_crash_report_field text acc.2 fd.1
      (acc.1 ||| r.1, r.2))
    acc

/-- `read_crash_report` from report.cpp: fold `read_crash_report_field`
over the fixed field list, OR-ing the per-field results (`result |= ...`)
starting from `result = 0`. -/
def read_crash_report (report : crash_data_t) (text : List Char) :
    Nat × crash_data_t :=
  read_crash_report_loop text report_fields (0, report)

/-! ### Destination discovery (the event-list scan in `report`) -/

mutual

/-- The destination-discovery loop of `report` in report.cpp: scan the
event list; the current position qualifies when the next six characters
are exactly `report` and the seventh character (`events[6]`) is the NUL
terminator (end of the whole string) or `'_'`; a qualifying position
pushes the text up to the next newline.  Then the scan resumes after the
current line's newline, or stops at the end of the string. -/
def discover_reporters (evs : List Char) : List (List Char) :=
  match evs with
  | [] => []
  | e :: es =>
    let ok := (str "report").isPrefixOf evs
                && ((evs.get? 6).all (fun c => c == '_'))
    let line := evs.takeWhile (fun c => c != '\n')
    (if ok then [line] else [])
      ++ (if e == '\n' then discover_reporters es else discover_skip_line es)

/-- Advance past the current line: consume characters up to and including
the next `'\n'` and resume the scan; end of string ends the scan. -/
def discover_skip_line : List Char → List (List Char)
  | [] => []
  | c :: cs =>
    if c == '\n' then discover_reporters cs else discover_skip_line cs

end

/-! ### SettingsStore: per-destination settings resolution -/

/-- `map_string_t`: a string-to-string map, modelled as an association
list. -/
abbrev map_string_t := List (List Char × List Char)

/-- Lookup in a `map_string_t` (first matching key). -/
def map_find : map_string_t → List Char → Option (List Char)
  | [], _ => none
  | (k, v) :: t, key => if k = key then some v else map_find t key

/-- `std::map::operator[] =`: replace the value of an existing key, or
add a new binding. -/
def map_set : map_string_t → List Char → List Char → map_string_t
  | [], key, value => [(key, value)]
  | (k, v) :: t, key, value =>
    if k = key then (k, value) :: t else (k, v) :: map_set t key value

/-- The merge loop of `get_reporter_plugin_settings`: every key of the
user's per-destination file is written over the defaults. -/
def merge_user_settings (defaults : map_string_t) (user : map_string_t) :
    map_string_t :=
  user.foldl (fun acc kv => map_set acc kv.1 kv.2) defaults

/-- `get_reporter_plugin_settings` from report.cpp.  External collaborators
are passed as functions: `getPluginSettings` is `call_GetPluginSettings`
(per-destination system defaults), `homedir` tells whether a home
directory was resolvable, and `load_conf` is `load_conf_file` on
`~/.abrt/<name>.conf` (`none` when the file is missing or malformed).  On
load failure the system defaults are left untouched; on success every
loaded key overwrites the default. -/
def get_reporter_plugin_settings
    (getPluginSettings : List Char → map_string_t)
    (homedir : Bool)
    (load_conf : List Char → Option map_string_t)
    (reporters : List (List Char)) : List (List Char × map_string_t) :=
  reporters.map (fun r =>
    let defaults := getPluginSettings r
    (r, if homedir then
          match load_conf r with
          | none => defaults
          | some user => merge_user_settings defaults user
        else defaults))

/-! ### SettingsStore: the user-settings file (user_settings.c) -/

/-- `save_conf_file` from user_settings.c, with the file-system outcomes
as parameters: `create_parentdir_ok` is the result of `create_parentdir`,
`fopen_ok` tells whether `fopen(temp_path, "w")` succeeded, and
`rename_result` is the C return value of `rename` (0 on success, nonzero
on failure).  The C body sets `ret = false`, jumps to cleanup when the
parent directory or the temp file cannot be created, writes the map, then
executes `if (!rename(temp_path, path)) goto cleanup;` and only afterwards
sets `ret = true`. -/
def save_conf_file (create_parentdir_ok fopen_ok : Bool)
    (rename_result : Int) : Bool :=
  if !create_parentdir_ok || !fopen_ok then false
  else if rename_result == 0 then false
  else true

/-- The process-wide state of user_settings.c: the static `conf_path` and
`user_settings` pointers, `none` when NULL (never loaded). -/
structure user_settings_state where
  conf_path : Option (List Char)
  user_settings : Option map_string_t

/-- The state at process start: both statics are NULL. -/
def initial_user_settings_state : user_settings_state := ⟨none, none⟩

/-- `save_user_settings` from user_settings.c: when `conf_path` or
`user_settings` is NULL it returns true without touching the file system;
otherwise it calls `save_conf_file`.  The second component records whether
a file write was attempted. -/
def save_user_settings (st : user_settings_state)
    (create_parentdir_ok fopen_ok : Bool) (rename_result : Int) :
    Bool × Bool :=
  match st.conf_path, st.user_settings with
  | some _, some _ =>
    (save_conf_file create_parentdir_ok fopen_ok rename_result, true)
  | _, _ => (true, false)

/-- `load_user_settings` from user_settings.c: replaces `conf_path` with
the per-application path and `user_settings` with a fresh map, then loads
the file (`loaded` is the map `load_conf_file` produced, empty on
failure). -/
def load_user_settings (application_name : List Char)
    (loaded : map_string_t) : user_settings_state :=
  { conf_path := some (str ".abrt/settings/" ++ application_name ++ str ".conf")
  , user_settings := some loaded }

/-! ### ReportOrchestrator: rating gate of the interactive dispatch -/

/-- `xatou`: decimal parse of a rating string (the claims only use it on
all-digit strings). -/
def xatou (s : List Char) : Nat :=
  s.foldl (fun a c => if c.isDigit then a * 10 + (c.toNat - 48) else a) 0

/-- The rating line of `report` in report.cpp:
`rating_str ? xatou(rating_str) : 4`. -/
def report_rating (crash_data : crash_data_t) : Nat :=
  match get_crash_item_content_or_NULL crash_data FILENAME_RATING with
  | none => 4
  | some s => xatou s

/-- Outcome of one destination in the interactive dispatch loop. -/
structure dispatch_outcome where
  plugins : Nat
  errors : Nat
  sent : Bool
  printed_hint : Bool
deriving DecidableEq, Repr

/-- One iteration of the interactive dispatch loop of `report` in
report.cpp, for one destination.  `string_to_bool` is the libreport helper
(outside `src/`), `rating` the precomputed report rating, `package` the
report's package field, `answer_yes` the user's reply to the
`Report using ...?` question, `settings` the destination's resolved
settings (`none` when the settings lookup failed), and `report_ok` tells
whether the status flag of the `call_Report` result differs from `"0"`.
A declared rating requirement with `rating < 3` refuses to send, prints
the debuginfo-install hint when a non-empty package is known, and counts
the destination as processed and failed. -/
def interactive_dispatch_step
    (string_to_bool : List Char → Bool)
    (rating : Nat) (package : Option (List Char))
    (answer_yes : Bool)
    (settings : Option map_string_t)
    (report_ok : Bool) : dispatch_outcome :=
  if !answer_yes then ⟨0, 0, false, false⟩
  else match settings with
    | none => ⟨1, 1, false, false⟩
    | some s =>
      let rating_required := match map_find s (str "RatingRequired") with
        | none => false
        | some v => string_to_bool v
      if rating_required && rating < 3 then
        let hint := match package with
          | none => false
          | some p => !p.isEmpty
        ⟨1, 1, false, hint⟩
      else
        ⟨1, if report_ok then 0 else 1, true, false⟩

/-- The whole interactive dispatch loop: fold the step over the
destinations (each with its answer, resolved settings and report status),
accumulating the `plugins` and `errors` counters. -/
def interactive_dispatch
    (string_to_bool : List Char → Bool)
    (rating : Nat) (package : Option (List Char)) :
    List (Bool × Option map_string_t × Bool) → Nat × Nat
  | [] => (0, 0)
  | (ans, st, ok) :: rest =>
    let r := interactive_dispatch_step string_to_bool rating package ans st ok
    let acc := interactive_dispatch string_to_bool rating package rest
    (r.plugins + acc.1, r.errors + acc.2)


example : escape (str "#a\nb") = str "\\#a\nb" := by decide
example : escape (str "\\#a") = str "\\\\#a" := by decide
example : escape (str "\\\\#a") = str "\\\\#a" := by decide
example : remove_comments_and_unescape (str "# c\n\\#a\nb") = str "#a\nb" := by decide
example : remove_comments_and_unescape (str "\\\\#a") = str "\\#a" := by decide
example : trim (str "  a b \n") = str "a b" := by decide
example : okContent true (str "\\\\#") = false := by decide
example : okContent true (str "a\n\\#x\n#y") = true := by decide

/-! ### Round-trip of `escape` and `remove_comments_and_unescape` -/

lemma rcauAux_false_cons (c : Char) (cs : List Char) :
    rcauAux false (c :: cs) = c :: rcauAux (c == '\n') cs := by
  rw [rcauAux.eq_def]; simp

lemma rcauAux_true_hash (cs : List Char) :
    rcauAux true ('#' :: cs) = rcauSkip cs := by
  rw [rcauAux.eq_def]; simp

lemma rcauAux_true_esc (d : Char) (ds : List Char) (h : isEscSeq (d :: ds) = true) :
    rcauAux true ('\\' :: d :: ds) = d :: rcauAux (d == '\n') ds := by
  rw [rcauAux.eq_def]; simp [h]

lemma rcauAux_true_plain (c : Char) (cs : List Char)
    (hc : (c == '#') = false) (h : (c == '\\' && isEscSeq cs) = false) :
    rcauAux true (c :: cs) = c :: rcauAux (c == '\n') cs := by
  rw [rcauAux.eq_def]; simp [hc, h]

lemma rcauSkip_append (k rest : List Char) (hk : '\n' ∉ k) :
    rcauSkip (k ++ '\n' :: rest) = rcauAux true rest := by
  induction k with
  | nil => simp [rcauSkip]
  | cons c cs ih =>
    simp only [List.mem_cons, not_or] at hk
    have hc : (c == '\n') = false := by
      simp only [beq_eq_false_iff_ne, ne_eq]
      exact fun h => hk.1 h.symm
    simp only [List.cons_append, rcauSkip, hc, Bool.false_eq_true, if_false]
    exact ih hk.2

lemma rcau_comment (k rest : List Char) (hk : headHash k = true) (hn : '\n' ∉ k) :
    rcauAux true (k ++ '\n' :: rest) = rcauAux true rest := by
  cases k with
  | nil => simp [headHash] at hk
  | cons c cs =>
    have hc : c = '#' := by simpa [headHash] using hk
    subst hc
    rw [List.cons_append, rcauAux_true_hash]
    exact rcauSkip_append cs rest (fun h => hn (List.mem_cons_of_mem _ h))

lemma rcau_inject (comments : List (List Char)) (body : List Char)
    (h : ∀ k ∈ comments, headHash k = true ∧ '\n' ∉ k) :
    rcauAux true (inject_comments comments body) = rcauAux true body := by
  induction comments with
  | nil => simp [inject_comments]
  | cons k ks ih =>
    have hk := h k (List.mem_cons_self k ks)
    have : inject_comments (k :: ks) body = k ++ '\n' :: inject_comments ks body := by
      simp [inject_comments]
    rw [this, rcau_comment k _ hk.1 hk.2]
    exact ih (fun k2 hk2 => h k2 (List.mem_cons_of_mem _ hk2))

lemma headHash_escapeAux_false (l : List Char) :
    headHash (escapeAux false l) = headHash l := by
  cases l with
  | nil => rfl
  | cons c cs => simp [escapeAux, headHash]

lemma rcau_escapeAux (c : List Char) : ∀ nl : Bool,
    okContent nl c = true → rcauAux nl (escapeAux nl c) = c := by
  induction c with
  | nil => intro nl _; cases nl <;> rfl
  | cons a cs ih =>
    intro nl hok
    simp only [okContent, Bool.and_eq_true, Bool.not_eq_true'] at hok
    obtain ⟨h1, h2⟩ := hok
    cases nl with
    | false =>
      rw [show escapeAux false (a :: cs) = a :: escapeAux (a == '\n') cs by simp [escapeAux]]
      rw [rcauAux_false_cons, ih (a == '\n') h2]
    | true =>
      have hbad : isBadStart (a :: cs) = false := by simpa using h1
      by_cases ha : a = '#'
      · subst ha
        rw [show escapeAux true ('#' :: cs) = '\\' :: '#' :: escapeAux false cs by
              simp [escapeAux, escNeeded]]
        rw [rcauAux_true_esc '#' _ (by simp [isEscSeq])]
        exact congrArg (fun l => '#' :: l) (ih false h2)
      · by_cases hb : a = '\\'
        · subst hb
          cases cs with
          | nil => decide
          | cons b bs =>
            by_cases hbh : b = '#'
            · subst hbh
              rw [show escapeAux true ('\\' :: '#' :: bs)
                    = '\\' :: '\\' :: escapeAux false ('#' :: bs) by
                  simp [escapeAux, escNeeded, headHash]]
              rw [rcauAux_true_esc '\\' _
                    (by simp only [isEscSeq, headHash_escapeAux_false]; simp [headHash])]
              exact congrArg (fun l => '\\' :: l) (ih false h2)
            · have hbh' : (b == '#') = false := beq_eq_false_iff_ne.mpr hbh
              rw [show escapeAux true ('\\' :: b :: bs)
                    = '\\' :: escapeAux false (b :: bs) by
                  simp [escapeAux, escNeeded, headHash, hbh']]
              have hesc : isEscSeq (escapeAux false (b :: bs)) = false := by
                rw [show escapeAux false (b :: bs) = b :: escapeAux (b == '\n') bs by
                    simp [escapeAux]]
                simp only [isEscSeq, hbh', Bool.false_or]
                by_cases hbb : b = '\\'
                · subst hbb
                  have : headHash bs = false := by simpa [isBadStart] using hbad
                  simp [headHash_escapeAux_false, this]
                · simp [beq_eq_false_iff_ne.mpr hbb]
              rw [rcauAux_true_plain '\\' _ rfl (by simp [hesc])]
              exact congrArg (fun l => '\\' :: l) (ih false h2)
        · have ha' : (a == '#') = false := beq_eq_false_iff_ne.mpr ha
          have hb' : (a == '\\') = false := beq_eq_false_iff_ne.mpr hb
          rw [show escapeAux true (a :: cs) = a :: escapeAux (a == '\n') cs by
              simp [escapeAux, escNeeded, ha', hb']]
          rw [rcauAux_true_plain a _ ha' (by simp [hb'])]
          rw [ih (a == '\n') h2]

/-- C1, as stated, is refuted: for the content `"\\#"` (backslash,
backslash, hash) the rendered body (comment line prepended to the escaped
content) parses back to `"\#"`, not to the original content.  `escape`
leaves a line starting `"\\#"` untouched while
`remove_comments_and_unescape` still strips one backslash from it. -/
theorem c1_roundtrip_counterexample :
    remove_comments_and_unescape
        (inject_comments [str "# comment"] (escape (str "\\\\#"))) = str "\\#"
      ∧ str "\\#" ≠ str "\\\\#"
      ∧ headHash (str "# comment") = true ∧ '\n' ∉ str "# comment" := by
  decide

/-- C1 (amended): unescaping and comment-stripping is the exact left
inverse of escaping composed with comment injection for every content `c`
none of whose lines begins with two backslashes immediately followed by
`'#'`: `remove_comments_and_unescape` applied to a rendered field body
built from `escape c` (comment lines prepended) recovers `c` exactly,
including contents containing `#`, `\#`, leading/trailing whitespace and
multi-line text.  (Contents with a line starting `\\#` come back with one
backslash removed.) -/
theorem c1_roundtrip_amended (comments : List (List Char)) (c : List Char)
    (hcom : ∀ k ∈ comments, headHash k = true ∧ '\n' ∉ k)
    (hc : okContent true c = true) :
    remove_comments_and_unescape (inject_comments comments (escape c)) = c := by
  unfold remove_comments_and_unescape escape
  rw [rcau_inject comments _ hcom]
  exact rcau_escapeAux c true hc

/-- Witness for C1 (amended): a concrete multi-line content with `#`,
`\#`, and leading/trailing whitespace round-trips through a rendered body
with a comment line prepended. -/
theorem c1_roundtrip_amended_witness :
    (∀ k ∈ [str "# check"], headHash k = true ∧ '\n' ∉ k)
      ∧ okContent true (str "  #one\n\\#two\nthree  ") = true
      ∧ remove_comments_and_unescape
          (inject_comments [str "# check"] (escape (str "  #one\n\\#two\nthree  ")))
          = str "  #one\n\\#two\nthree  " :=
  ⟨by decide, by decide, c1_roundtrip_amended _ _ (by decide) (by decide)⟩

/-! ### C2: destination discovery -/

/-- C2, as stated, is refuted: the code tests `events[6] == '\0'`, i.e.
end of the whole event string, not end of line, so for the event list
`"report_bugzilla\nreportXYZ\nfoo\nreport\n"` the line `report` (which is
followed by a newline, not by the end of the string) is NOT discovered:
the result is `[report_bugzilla]`, not `{report_bugzilla, report}`. -/
theorem c2_discovery_counterexample :
    discover_reporters (str "report_bugzilla\nreportXYZ\nfoo\nreport\n")
        = [str "report_bugzilla"]
      ∧ str "report" ∉
          discover_reporters (str "report_bugzilla\nreportXYZ\nfoo\nreport\n") := by
  decide

/-- C2 (amended): a line qualifies as a destination when it starts with
the literal token `report` followed by the end of the whole event string
or `'_'`.  On `"report_bugzilla\nreportXYZ\nfoo\nreport\n"` the
discovered destinations are exactly `[report_bugzilla]` (`reportXYZ`,
`foo` and the newline-terminated `report` are excluded); a bare final
`report` qualifies only without the trailing newline, as in
`"report_bugzilla\nreportXYZ\nfoo\nreport"`, which yields
`[report_bugzilla, report]`. -/
theorem c2_discovery_amended :
    discover_reporters (str "report_bugzilla\nreportXYZ\nfoo\nreport\n")
        = [str "report_bugzilla"]
      ∧ discover_reporters (str "report_bugzilla\nreportXYZ\nfoo\nreport")
        = [str "report_bugzilla", str "report"]
      ∧ str "reportXYZ" ∉
          discover_reporters (str "report_bugzilla\nreportXYZ\nfoo\nreport")
      ∧ str "foo" ∉
          discover_reporters (str "report_bugzilla\nreportXYZ\nfoo\nreport") := by
  decide

/-! ### C3: atomic settings save -/

/-- C3: the claim is contradicted by the code.  `save_conf_file` does
return false when the parent directory cannot be created or the temp file
cannot be opened, but its rename test `if (!rename(temp_path, path))
goto cleanup;` is inverted (`rename` returns 0 on success): on a fully
successful write it returns false, and when the rename fails it returns
true — the opposite of the claim and of the function's own comment
`Returns false if write failed`.  `save_user_settings` on a loaded store
forwards the `save_conf_file` result unchanged. -/
theorem c3_save_conf_file_inverted_rename :
    save_conf_file false true 1 = false
      ∧ save_conf_file true false 1 = false
      ∧ save_conf_file true true 0 = false
      ∧ save_conf_file true true (-1) = true
      ∧ (∀ (create_parentdir_ok fopen_ok : Bool) (rename_result : Int),
           save_user_settings (load_user_settings (str "abrt") [])
               create_parentdir_ok fopen_ok rename_result
             = (save_conf_file create_parentdir_ok fopen_ok rename_result, true)) :=
  ⟨rfl, rfl, rfl, rfl, fun _ _ _ => rfl⟩

/-! ### C10: saving an unloaded settings store -/

/-- C10: when `load_user_settings` was never called both static pointers
are NULL, and `save_user_settings` returns true without attempting any
file write — a successful no-op, whatever the file system would have
done. -/
theorem c10_save_unloaded_noop (create_parentdir_ok fopen_ok : Bool)
    (rename_result : Int) :
    save_user_settings initial_user_settings_state
        create_parentdir_ok fopen_ok rename_result = (true, false) := rfl

/-! ### C5: rendering and the SYS flag -/

set_option maxRecDepth 8000 in
/-- C5, as stated, is refuted: a present field flagged `SYS` is NOT
rendered — `write_crash_report_field` returns before printing anything
for it (after an error message), so a report whose only field is a
`SYS`-flagged comment renders as the bare header with no field block. -/
theorem c5_sys_render_counterexample :
    get_crash_data_item_or_NULL
        [(FILENAME_COMMENT, ⟨str "hello", ⟨true, true, true⟩⟩)] FILENAME_COMMENT
        = some (⟨str "hello", ⟨true, true, true⟩⟩ : crash_item)
      ∧ write_crash_report_field
          [(FILENAME_COMMENT, ⟨str "hello", ⟨true, true, true⟩⟩)]
          FILENAME_COMMENT
          (str "# Describe the circumstances of this crash below") = []
      ∧ write_crash_report [(FILENAME_COMMENT, ⟨str "hello", ⟨true, true, true⟩⟩)]
          = report_header := by
  decide

/-- C5 (amended): `write_crash_report_field` emits a field block for every
well-known field present in the report whose `SYS` flag is unset; a field
flagged `SYS` is skipped during rendering (with an error message), so
`SYS` suppresses rendering in addition to blocking write-back during
apply. -/
theorem c5_render_amended (crash_data : crash_data_t)
    (field description : List Char) (value : crash_item)
    (hv : get_crash_data_item_or_NULL crash_data field = some value) :
    write_crash_report_field crash_data field description
      = if value.flags.sys then []
        else
          FIELD_SEP ++ field ++ ['\n'] ++ description ++ ['\n']
            ++ (if !value.flags.iseditable then str "# This field is read only\n"
                else [])
            ++ escape value.content ++ ['\n'] := by
  unfold write_crash_report_field
  rw [hv]

/-- Witness for C5 (amended): a present, non-`SYS`, non-editable package
field renders as marker line, description, read-only comment and escaped
content. -/
theorem c5_render_amended_witness :
    get_crash_data_item_or_NULL
        [(FILENAME_PACKAGE, ⟨str "pkg-1.0", ⟨false, false, true⟩⟩)] FILENAME_PACKAGE
        = some (⟨str "pkg-1.0", ⟨false, false, true⟩⟩ : crash_item)
      ∧ write_crash_report_field
          [(FILENAME_PACKAGE, ⟨str "pkg-1.0", ⟨false, false, true⟩⟩)]
          FILENAME_PACKAGE (str "# Package")
        = if (⟨str "pkg-1.0", ⟨false, false, true⟩⟩ : crash_item).flags.sys then []
          else
            FIELD_SEP ++ FILENAME_PACKAGE ++ ['\n'] ++ str "# Package" ++ ['\n']
              ++ (if !(⟨str "pkg-1.0", ⟨false, false, true⟩⟩ : crash_item).flags.iseditable
                  then str "# This field is read only\n" else [])
              ++ escape (str "pkg-1.0") ++ ['\n'] :=
  ⟨by decide, c5_render_amended _ _ _ _ (by decide)⟩

/-! ### C6 and C7: protected and read-only fields under apply -/

/-- C6: a field flagged `SYS` never has its content replaced by document
parsing: whatever the edited text contains and whether or not
`ISEDITABLE` is also set, `read_crash_report_field` returns 0 and leaves
the report untouched. -/
theorem c6_sys_never_replaced (text : List Char) (report : crash_data_t)
    (field : List Char) (value : crash_item)
    (hv : get_crash_data_item_or_NULL report field = some value)
    (hsys : value.flags.sys = true) :
    read_crash_report_field text report field = (0, report) := by
  cases h : strstr text ('\n' :: (FIELD_SEP ++ field ++ ['\n'])) with
  | none => simp only [read_crash_report_field, h]
  | some suffix =>
    simp only [read_crash_report_field, h, hv]
    simp [hsys]

/-- Witness for C6: a `SYS` (and even `ISEDITABLE`) comment field keeps
its content although the document edits its block. -/
theorem c6_sys_never_replaced_witness :
    get_crash_data_item_or_NULL
        [(FILENAME_COMMENT, ⟨str "orig", ⟨true, true, true⟩⟩)] FILENAME_COMMENT
        = some (⟨str "orig", ⟨true, true, true⟩⟩ : crash_item)
      ∧ (⟨str "orig", (⟨true, true, true⟩ : cd_flags)⟩ : crash_item).flags.sys = true
      ∧ read_crash_report_field (str "\n%----comment\nEDITED\n")
          [(FILENAME_COMMENT, ⟨str "orig", ⟨true, true, true⟩⟩)] FILENAME_COMMENT
          = (0, [(FILENAME_COMMENT, ⟨str "orig", ⟨true, true, true⟩⟩)]) :=
  ⟨by decide, by decide,
    c6_sys_never_replaced (str "\n%----comment\nEDITED\n")
      [(FILENAME_COMMENT, ⟨str "orig", ⟨true, true, true⟩⟩)] FILENAME_COMMENT
      ⟨str "orig", ⟨true, true, true⟩⟩ (by decide) (by decide)⟩

/-- C7: a field lacking `ISEDITABLE` never has its content replaced by
document parsing: `read_crash_report_field` returns 0 (the field is not
counted as changed) and leaves the report untouched — the discarded edit
produces no error and no report of a change. -/
theorem c7_readonly_never_replaced (text : List Char) (report : crash_data_t)
    (field : List Char) (value : crash_item)
    (hv : get_crash_data_item_or_NULL report field = some value)
    (hed : value.flags.iseditable = false) :
    read_crash_report_field text report field = (0, report) := by
  cases h : strstr text ('\n' :: (FIELD_SEP ++ field ++ ['\n'])) with
  | none => simp only [read_crash_report_field, h]
  | some suffix =>
    simp only [read_crash_report_field, h, hv]
    simp [hed]

/-- Witness for C7: a non-`SYS`, non-editable backtrace field keeps its
content although the document edits its block, with result 0. -/
theorem c7_readonly_never_replaced_witness :
    get_crash_data_item_or_NULL
        [(FILENAME_BACKTRACE, ⟨str "bt", ⟨false, false, true⟩⟩)] FILENAME_BACKTRACE
        = some (⟨str "bt", ⟨false, false, true⟩⟩ : crash_item)
      ∧ (⟨str "bt", (⟨false, false, true⟩ : cd_flags)⟩ : crash_item).flags.iseditable
          = false
      ∧ read_crash_report_field (str "\n%----backtrace\nEDITED\n")
          [(FILENAME_BACKTRACE, ⟨str "bt", ⟨false, false, true⟩⟩)] FILENAME_BACKTRACE
          = (0, [(FILENAME_BACKTRACE, ⟨str "bt", ⟨false, false, true⟩⟩)]) :=
  ⟨by decide, by decide,
    c7_readonly_never_replaced (str "\n%----backtrace\nEDITED\n")
      [(FILENAME_BACKTRACE, ⟨str "bt", ⟨false, false, true⟩⟩)] FILENAME_BACKTRACE
      ⟨str "bt", ⟨false, false, true⟩⟩ (by decide) (by decide)⟩

/-! ### C4: change counting in apply -/

lemma read_crash_report_field_zero_or_one (text : List Char)
    (report : crash_data_t) (field : List Char) :
    ((read_crash_report_field text report field).1 = 0
        ∧ (read_crash_report_field text report field).2 = report)
      ∨ (read_crash_report_field text report field).1 = 1 := by
  cases h : strstr text ('\n' :: (FIELD_SEP ++ field ++ ['\n'])) with
  | none =>
    simp only [read_crash_report_field, h]; exact Or.inl ⟨trivial, trivial⟩
  | some suffix =>
    cases hv : get_crash_data_item_or_NULL report field with
    | none =>
      simp only [read_crash_report_field, h, hv]; exact Or.inl ⟨trivial, trivial⟩
    | some value =>
      simp only [read_crash_report_field, h, hv]
      split_ifs with h1 h2 h3
      · exact Or.inl ⟨rfl, rfl⟩
      · exact Or.inl ⟨rfl, rfl⟩
      · exact Or.inl ⟨rfl, rfl⟩
      · exact Or.inr rfl

lemma nat_or_zero_or_one (a b : Nat) (ha : a = 0 ∨ a = 1) (hb : b = 0 ∨ b = 1) :
    ((a ||| b) = 0 ∨ (a ||| b) = 1)
      ∧ ((a ||| b) = 0 → a = 0 ∧ b = 0)
      ∧ (a = 1 → (a ||| b) = 1) := by
  rcases ha with rfl | rfl <;> rcases hb with rfl | rfl <;> exact (by decide)

lemma read_crash_report_loop_props (text : List Char) :
    ∀ (fields : List (List Char × List Char)) (acc : Nat × crash_data_t),
      acc.1 = 0 ∨ acc.1 = 1 →
      ((read_crash_report_loop text fields acc).1 = 0
          ∨ (read_crash_report_loop text fields acc).1 = 1)
        ∧ ((read_crash_report_loop text fields acc).1 = 0 →
             (read_crash_report_loop text fields acc).2 = acc.2 ∧ acc.1 = 0)
        ∧ (acc.1 = 1 → (read_crash_report_loop text fields acc).1 = 1) := by
  intro fields
  induction fields with
  | nil =>
    intro acc hacc
    exact ⟨hacc, fun h => ⟨rfl, h⟩, fun h => h⟩
  | cons fd rest ih =>
    intro acc hacc
    have hstep : read_crash_report_loop text (fd :: rest) acc
        = read_crash_report_loop text rest
            (acc.1 ||| (read_crash_report_field text acc.2 fd.1).1,
             (read_crash_report_field text acc.2 fd.1).2) := by
      simp only [read_crash_report_loop, List.foldl_cons]
    have hro := read_crash_report_field_zero_or_one text acc.2 fd.1
    have hr01 : (read_crash_report_field text acc.2 fd.1).1 = 0
        ∨ (read_crash_report_field text acc.2 fd.1).1 = 1 := by
      rcases hro with ⟨h0, _⟩ | h1
      · exact Or.inl h0
      · exact Or.inr h1
    have hor := nat_or_zero_or_one acc.1 (read_crash_report_field text acc.2 fd.1).1
      hacc hr01
    have ihres := ih (acc.1 ||| (read_crash_report_field text acc.2 fd.1).1,
                      (read_crash_report_field text acc.2 fd.1).2) hor.1
    rw [hstep]
    refine ⟨ihres.1, ?_, ?_⟩
    · intro hz
      obtain ⟨hsnd, hfst⟩ := ihres.2.1 hz
      obtain ⟨hacc0, hr0⟩ := hor.2.1 hfst
      rcases hro with ⟨_, hr2⟩ | hr1
      · exact ⟨by rw [hsnd]; exact hr2, hacc0⟩
      · exact absurd (hr0.symm.trans hr1) (by decide)
    · intro h1
      exact ihres.2.2 (hor.2.2 h1)


lemma dropWhile_head_false (p : Char → Bool) :
    ∀ (l : List Char) (c : Char) (cs : List Char),
      l.dropWhile p = c :: cs → p c = false := by
  intro l
  induction l with
  | nil => intro c cs h; simp [List.dropWhile] at h
  | cons a t ih =>
    intro c cs h
    by_cases hp : p a = true
    · rw [List.dropWhile_cons_of_pos hp] at h
      exact ih c cs h
    · rw [List.dropWhile_cons_of_neg hp] at h
      injection h with h1 _
      subst h1
      simpa using hp

lemma dropWhile_eq_self_of (p : Char → Bool) (l : List Char)
    (h : ∀ c cs, l = c :: cs → p c = false) : l.dropWhile p = l := by
  cases l with
  | nil => rfl
  | cons c cs =>
    rw [List.dropWhile_cons_of_neg]
    simp [h c cs rfl]

lemma dropWhile_idem (p : Char → Bool) (l : List Char) :
    (l.dropWhile p).dropWhile p = l.dropWhile p := by
  cases h : l.dropWhile p with
  | nil => rfl
  | cons c cs =>
    have hc := dropWhile_head_false p l c cs h
    rw [List.dropWhile_cons_of_neg (by simp [hc])]

lemma dropWhile_is_suffix (p : Char → Bool) (l : List Char) :
    ∃ t, t ++ l.dropWhile p = l := by
  induction l with
  | nil => exact ⟨[], rfl⟩
  | cons c cs ih =>
    by_cases hp : p c = true
    · obtain ⟨t, ht⟩ := ih
      refine ⟨c :: t, ?_⟩
      rw [List.dropWhile_cons_of_pos hp, List.cons_append, ht]
    · refine ⟨[], ?_⟩
      rw [List.nil_append, List.dropWhile_cons_of_neg hp]

lemma trim_head_false (s : List Char) (c : Char) (cs : List Char)
    (h : trim s = c :: cs) : isspace c = false := by
  obtain ⟨t, ht⟩ := dropWhile_is_suffix isspace (s.dropWhile isspace).reverse
  have hC : s.dropWhile isspace = trim s ++ t.reverse := by
    have h2 := congrArg List.reverse ht
    simpa [trim, List.reverse_append] using h2.symm
  exact dropWhile_head_false isspace s c (cs ++ t.reverse)
    (by rw [hC, h]; simp)

lemma trim_idem (s : List Char) : trim (trim s) = trim s := by
  have h1 : (trim s).dropWhile isspace = trim s :=
    dropWhile_eq_self_of isspace (trim s) (fun c cs h => trim_head_false s c cs h)
  have h2 : (trim s).reverse.dropWhile isspace = (trim s).reverse := by
    have hD : (trim s).reverse
        = ((s.dropWhile isspace).reverse).dropWhile isspace := by
      simp [trim]
    rw [hD, dropWhile_idem]
  show (((trim s).dropWhile isspace).reverse.dropWhile isspace).reverse = trim s
  rw [h1, h2, List.reverse_reverse]

lemma update_cons (k : List Char) (v : crash_item) (t : crash_data_t)
    (field newvalue : List Char) :
    update_crash_item_content ((k, v) :: t) field newvalue
      = (if k = field then (k, { v with content := newvalue }) else (k, v))
          :: update_crash_item_content t field newvalue := by
  simp [update_crash_item_content]

lemma update_lookup_other (report : crash_data_t) (field newvalue f2 : List Char)
    (hne : f2 ≠ field) :
    get_crash_data_item_or_NULL (update_crash_item_content report field newvalue) f2
      = get_crash_data_item_or_NULL report f2 := by
  induction report with
  | nil => rfl
  | cons kv t ih =>
    obtain ⟨k, v⟩ := kv
    rw [update_cons]
    by_cases hk : k = field
    · subst hk
      rw [if_pos rfl]
      have hk2 : ¬k = f2 := fun hh => hne hh.symm
      simp [get_crash_data_item_or_NULL, hk2, ih]
    · rw [if_neg hk]
      by_cases hk2 : k = f2
      · subst hk2
        simp [get_crash_data_item_or_NULL]
      · simp [get_crash_data_item_or_NULL, hk2, ih]

lemma update_lookup_self (report : crash_data_t) (field newvalue : List Char)
    (value : crash_item)
    (hv : get_crash_data_item_or_NULL report field = some value) :
    get_crash_data_item_or_NULL (update_crash_item_content report field newvalue) field
      = some { value with content := newvalue } := by
  induction report with
  | nil => simp [get_crash_data_item_or_NULL] at hv
  | cons kv t ih =>
    obtain ⟨k, v⟩ := kv
    rw [update_cons]
    by_cases hk : k = field
    · subst hk
      rw [if_pos rfl]
      have hval : v = value := by simpa [get_crash_data_item_or_NULL] using hv
      subst hval
      simp [get_crash_data_item_or_NULL]
    · rw [if_neg hk]
      have hv2 : get_crash_data_item_or_NULL t field = some value := by
        simpa [get_crash_data_item_or_NULL, hk] using hv
      simp [get_crash_data_item_or_NULL, hk, ih hv2]

lemma read_crash_report_field_changed (text : List Char) (report : crash_data_t)
    (field : List Char)
    (h1 : (read_crash_report_field text report field).1 = 1) :
    get_crash_item_content_or_NULL (read_crash_report_field text report field).2 field
      ≠ get_crash_item_content_or_NULL report field := by
  cases h : strstr text ('\n' :: (FIELD_SEP ++ field ++ ['\n'])) with
  | none =>
    simp only [read_crash_report_field, h] at h1
    exact absurd h1 (by decide)
  | some suffix =>
    cases hv : get_crash_data_item_or_NULL report field with
    | none =>
      simp only [read_crash_report_field, h, hv] at h1
      exact absurd h1 (by decide)
    | some value =>
      simp only [read_crash_report_field, h, hv] at h1 ⊢
      split_ifs at h1 ⊢ with hs he heq
      dsimp only
      simp only [get_crash_item_content_or_NULL, hv,
        update_lookup_self report field _ value hv, Option.map_some']
      intro hcon
      have hNc := Option.some.inj hcon
      exact heq (by rw [← hNc]; exact (trim_idem _).symm)

lemma read_crash_report_field_frame (text : List Char) (report : crash_data_t)
    (field f2 : List Char) (hne : f2 ≠ field) :
    get_crash_data_item_or_NULL (read_crash_report_field text report field).2 f2
      = get_crash_data_item_or_NULL report f2 := by
  cases h : strstr text ('\n' :: (FIELD_SEP ++ field ++ ['\n'])) with
  | none =>
    simp only [read_crash_report_field, h]
  | some suffix =>
    cases hv : get_crash_data_item_or_NULL report field with
    | none =>
      simp only [read_crash_report_field, h, hv]
    | some value =>
      simp only [read_crash_report_field, h, hv]
      split_ifs with hs he heq
      · rfl
      · rfl
      · rfl
      · exact update_lookup_other report field _ f2 hne

lemma read_crash_report_loop_frame (text f : List Char) :
    ∀ (fields : List (List Char × List Char)) (acc : Nat × crash_data_t),
      (∀ fd ∈ fields, f ≠ fd.1) →
      get_crash_data_item_or_NULL (read_crash_report_loop text fields acc).2 f
        = get_crash_data_item_or_NULL acc.2 f := by
  intro fields
  induction fields with
  | nil => intro acc _; rfl
  | cons fd rest ih =>
    intro acc hf
    have hstep : read_crash_report_loop text (fd :: rest) acc
        = read_crash_report_loop text rest
            (acc.1 ||| (read_crash_report_field text acc.2 fd.1).1,
             (read_crash_report_field text acc.2 fd.1).2) := by
      simp only [read_crash_report_loop, List.foldl_cons]
    rw [hstep, ih _ (fun fd2 h2 => hf fd2 (List.mem_cons_of_mem _ h2))]
    exact read_crash_report_field_frame text acc.2 fd.1 f
      (hf fd (List.mem_cons_self _ _))

lemma read_crash_report_loop_changed (text : List Char) :
    ∀ (fields : List (List Char × List Char)) (acc : Nat × crash_data_t),
      (fields.map Prod.fst).Nodup →
      (acc.1 = 0 ∨ acc.1 = 1) →
      (read_crash_report_loop text fields acc).1 = 1 →
      acc.1 = 1
        ∨ ∃ f ∈ fields.map Prod.fst,
            get_crash_item_content_or_NULL (read_crash_report_loop text fields acc).2 f
              ≠ get_crash_item_content_or_NULL acc.2 f := by
  intro fields
  induction fields with
  | nil =>
    intro acc _ _ h1
    exact Or.inl h1
  | cons fd rest ih =>
    intro acc hnd hacc01 h1
    simp only [List.map_cons, List.nodup_cons] at hnd
    have hstep : read_crash_report_loop text (fd :: rest) acc
        = read_crash_report_loop text rest
            (acc.1 ||| (read_crash_report_field text acc.2 fd.1).1,
             (read_crash_report_field text acc.2 fd.1).2) := by
      simp only [read_crash_report_loop, List.foldl_cons]
    rw [hstep] at h1 ⊢
    have hr01 : (read_crash_report_field text acc.2 fd.1).1 = 0
        ∨ (read_crash_report_field text acc.2 fd.1).1 = 1 := by
      rcases read_crash_report_field_zero_or_one text acc.2 fd.1 with ⟨h0, _⟩ | hone
      · exact Or.inl h0
      · exact Or.inr hone
    have hfdrest : ∀ fd2 ∈ rest, fd.1 ≠ fd2.1 := by
      intro fd2 h2 heq2
      exact hnd.1 (heq2 ▸ List.mem_map_of_mem Prod.fst h2)
    rcases ih (acc.1 ||| (read_crash_report_field text acc.2 fd.1).1,
               (read_crash_report_field text acc.2 fd.1).2)
        hnd.2 ((nat_or_zero_or_one acc.1 _ hacc01 hr01).1) h1 with hacc1 | ⟨f, hfmem, hfne⟩
    · have hsplit : acc.1 = 1 ∨ (read_crash_report_field text acc.2 fd.1).1 = 1 := by
        rcases hacc01 with h0 | h1a
        · rcases hr01 with hr0 | hr1
          · rw [h0, hr0] at hacc1
            simp at hacc1
          · exact Or.inr hr1
        · exact Or.inl h1a
      rcases hsplit with ha1 | hrone
      · exact Or.inl ha1
      · right
        refine ⟨fd.1, by simp, ?_⟩
        have hframe : get_crash_data_item_or_NULL
            (read_crash_report_loop text rest
              (acc.1 ||| (read_crash_report_field text acc.2 fd.1).1,
               (read_crash_report_field text acc.2 fd.1).2)).2 fd.1
            = get_crash_data_item_or_NULL
                (read_crash_report_field text acc.2 fd.1).2 fd.1 :=
          read_crash_report_loop_frame text fd.1 rest _ hfdrest
        have hcont : get_crash_item_content_or_NULL
            (read_crash_report_loop text rest
              (acc.1 ||| (read_crash_report_field text acc.2 fd.1).1,
               (read_crash_report_field text acc.2 fd.1).2)).2 fd.1
            = get_crash_item_content_or_NULL
                (read_crash_report_field text acc.2 fd.1).2 fd.1 := by
          simp only [get_crash_item_content_or_NULL, hframe]
        rw [hcont]
        exact read_crash_report_field_changed text acc.2 fd.1 hrone
    · right
      refine ⟨f, List.mem_cons_of_mem _ hfmem, ?_⟩
      have hne : f ≠ fd.1 := by
        intro heq2
        exact hnd.1 (heq2 ▸ hfmem)
      have hstepfr : get_crash_data_item_or_NULL
          (read_crash_report_field text acc.2 fd.1).2 f
          = get_crash_data_item_or_NULL acc.2 f :=
        read_crash_report_field_frame text acc.2 fd.1 f hne
      have hcontfr : get_crash_item_content_or_NULL
          (read_crash_report_field text acc.2 fd.1).2 f
          = get_crash_item_content_or_NULL acc.2 f := by
        simp only [get_crash_item_content_or_NULL, hstepfr]
      rw [← hcontfr]
      exact hfne

set_option maxRecDepth 8000 in
/-- C4, as stated, is refuted: with a report holding two editable fields
(`comment` = "a", `reproduce` = "b") and an edited document changing both
(`X` and `Y`), the apply step does change both contents — so the number
of changed fields is 2 — yet `read_crash_report` returns 1, because the
per-field results are combined with `result |= ...`, not summed. -/
theorem c4_changed_count_counterexample :
    (read_crash_report
        [ (FILENAME_COMMENT, ⟨str "a", ⟨false, true, true⟩⟩)
        , (FILENAME_REPRODUCE, ⟨str "b", ⟨false, true, true⟩⟩) ]
        (str "\n%----comment\nX\n%----reproduce\nY\n")).1 = 1
      ∧ (read_crash_report
          [ (FILENAME_COMMENT, ⟨str "a", ⟨false, true, true⟩⟩)
          , (FILENAME_REPRODUCE, ⟨str "b", ⟨false, true, true⟩⟩) ]
          (str "\n%----comment\nX\n%----reproduce\nY\n")).2
        = [ (FILENAME_COMMENT, ⟨str "X", ⟨false, true, true⟩⟩)
          , (FILENAME_REPRODUCE, ⟨str "Y", ⟨false, true, true⟩⟩) ]
      ∧ (1 : Nat) ≠ 2 := by
  decide

/-- C4 (amended): `read_crash_report` returns a change indicator, not a
count: the result is 1 exactly when at least one field's content actually
changed and 0 when none did (per the code's own comment, `result |= ...`
over the fields).  A result of 0 guarantees the report is returned
unchanged, and a result of 1 guarantees that some well-known field's
content differs from the original — in particular the report itself
differs.  When two or more fields change the returned value is still 1. -/
theorem c4_change_indicator_amended (report : crash_data_t) (text : List Char) :
    ((read_crash_report report text).1 = 0 ∨ (read_crash_report report text).1 = 1)
      ∧ ((read_crash_report report text).1 = 0
           → (read_crash_report report text).2 = report)
      ∧ ((read_crash_report report text).1 = 1
           → ∃ f ∈ report_fields.map Prod.fst,
               get_crash_item_content_or_NULL (read_crash_report report text).2 f
                 ≠ get_crash_item_content_or_NULL report f)
      ∧ ((read_crash_report report text).1 = 1
           → (read_crash_report report text).2 ≠ report) := by
  have hprops := read_crash_report_loop_props text report_fields (0, report) (Or.inl rfl)
  have hchanged : (read_crash_report report text).1 = 1 →
      ∃ f ∈ report_fields.map Prod.fst,
        get_crash_item_content_or_NULL (read_crash_report report text).2 f
          ≠ get_crash_item_content_or_NULL report f := by
    intro h1
    rcases read_crash_report_loop_changed text report_fields (0, report)
        (by decide) (Or.inl rfl) h1 with h0 | hex
    · simp at h0
    · exact hex
  refine ⟨hprops.1, fun hz => (hprops.2.1 hz).1, hchanged, ?_⟩
  intro h1 heqrep
  obtain ⟨f, _, hne⟩ := hchanged h1
  rw [heqrep] at hne
  exact hne rfl

/-! ### C8: settings layering -/

lemma map_find_map_set_self (m : map_string_t) (k v : List Char) :
    map_find (map_set m k v) k = some v := by
  induction m with
  | nil => simp [map_set, map_find]
  | cons kv t ih =>
    obtain ⟨k1, v1⟩ := kv
    by_cases h : k1 = k
    · subst h; simp [map_set, map_find]
    · simp [map_set, map_find, h, ih]

lemma map_find_map_set_other (m : map_string_t) (k v k2 : List Char)
    (hne : k2 ≠ k) :
    map_find (map_set m k v) k2 = map_find m k2 := by
  have hne2 : ¬k = k2 := fun hh => hne hh.symm
  induction m with
  | nil => simp [map_set, map_find, hne2]
  | cons kv t ih =>
    obtain ⟨k1, v1⟩ := kv
    by_cases h : k1 = k
    · subst h
      simp [map_set, map_find, hne2]
    · by_cases h2 : k1 = k2
      · subst h2; simp [map_set, map_find, h, ih]
      · simp [map_set, map_find, h, h2, ih]

lemma merge_cons (d : map_string_t) (k1 v1 : List Char) (t : map_string_t) :
    merge_user_settings d ((k1, v1) :: t)
      = merge_user_settings (map_set d k1 v1) t := by
  simp [merge_user_settings]

lemma map_find_eq_none_of_not_mem (u : map_string_t) (k : List Char)
    (h : k ∉ u.map Prod.fst) : map_find u k = none := by
  induction u with
  | nil => rfl
  | cons kv t ih =>
    obtain ⟨k1, v1⟩ := kv
    simp only [List.map_cons, List.mem_cons, not_or] at h
    have h1 : k1 ≠ k := fun hh => h.1 hh.symm
    simp [map_find, h1, ih h.2]

lemma merge_find_none (u : map_string_t) :
    ∀ (d : map_string_t) (k : List Char), map_find u k = none →
      map_find (merge_user_settings d u) k = map_find d k := by
  induction u with
  | nil => intro d k _; rfl
  | cons kv t ih =>
    intro d k hk
    obtain ⟨k1, v1⟩ := kv
    have h1 : k1 ≠ k := by
      intro h
      simp [map_find, h] at hk
    have ht : map_find t k = none := by simpa [map_find, h1] using hk
    rw [merge_cons, ih _ _ ht, map_find_map_set_other d k1 v1 k (Ne.symm h1)]

lemma merge_find_some (u : map_string_t) :
    ∀ (d : map_string_t) (k v : List Char),
      (u.map Prod.fst).Nodup → map_find u k = some v →
      map_find (merge_user_settings d u) k = some v := by
  induction u with
  | nil => intro d k v _ h; simp [map_find] at h
  | cons kv t ih =>
    intro d k v hnd hk
    obtain ⟨k1, v1⟩ := kv
    simp only [List.map_cons, List.nodup_cons] at hnd
    by_cases h : k1 = k
    · subst h
      have hv : v1 = v := by simpa [map_find] using hk
      subst hv
      have htn : map_find t k1 = none := map_find_eq_none_of_not_mem t k1 hnd.1
      rw [merge_cons, merge_find_none t _ _ htn]
      exact map_find_map_set_self d k1 v1
    · have ht : map_find t k = some v := by simpa [map_find, h] using hk
      rw [merge_cons]
      exact ih _ _ _ hnd.2 ht

/-- C8: settings resolution layers the per-user file over the
per-destination system defaults key-by-key.  When the user file loads,
the resolved map is the defaults overlaid with the user entries: every
key present in the user file resolves to the user value, keys absent
from it keep the default value, and when the user file is missing or
malformed (`load_conf` gives `none`) the system defaults are returned
untouched. -/
theorem c8_settings_layering (defaults user : map_string_t)
    (getPluginSettings : List Char → map_string_t)
    (load_conf : List Char → Option map_string_t) (r : List Char)
    (hdef : getPluginSettings r = defaults)
    (hload : load_conf r = some user)
    (hnodup : (user.map Prod.fst).Nodup) :
    get_reporter_plugin_settings getPluginSettings true load_conf [r]
        = [(r, merge_user_settings defaults user)]
      ∧ (∀ k v, map_find user k = some v →
            map_find (merge_user_settings defaults user) k = some v)
      ∧ (∀ k, map_find user k = none →
            map_find (merge_user_settings defaults user) k = map_find defaults k)
      ∧ (∀ r2, load_conf r2 = none →
            get_reporter_plugin_settings getPluginSettings true load_conf [r2]
              = [(r2, getPluginSettings r2)]) := by
  refine ⟨?_, ?_, ?_, ?_⟩
  · simp [get_reporter_plugin_settings, hload, hdef]
  · intro k v hk
    exact merge_find_some user defaults k v hnodup hk
  · intro k hk
    exact merge_find_none user defaults k hk
  · intro r2 h2
    simp [get_reporter_plugin_settings, h2]

/-- Witness for C8 at the claim's example: system defaults
`{Login: "", Password: "", Extra: "x"}` with a user file containing
`Login = "alice"` resolve to `{Login: "alice", Password: "", Extra: "x"}`. -/
theorem c8_settings_layering_witness :
    ((fun _ : List Char => [(str "Login", ([] : List Char)),
        (str "Password", ([] : List Char)), (str "Extra", str "x")])
          (str "report_Bugzilla")
        = [(str "Login", ([] : List Char)), (str "Password", ([] : List Char)),
           (str "Extra", str "x")])
      ∧ ((fun _ : List Char => some [(str "Login", str "alice")])
            (str "report_Bugzilla") = some [(str "Login", str "alice")])
      ∧ (([(str "Login", str "alice")] : map_string_t).map Prod.fst).Nodup
      ∧ (get_reporter_plugin_settings
            (fun _ => [(str "Login", []), (str "Password", []), (str "Extra", str "x")])
            true (fun _ => some [(str "Login", str "alice")]) [str "report_Bugzilla"]
          = [(str "report_Bugzilla",
              merge_user_settings
                [(str "Login", []), (str "Password", []), (str "Extra", str "x")]
                [(str "Login", str "alice")])]
        ∧ (∀ k v, map_find [(str "Login", str "alice")] k = some v →
              map_find (merge_user_settings
                [(str "Login", []), (str "Password", []), (str "Extra", str "x")]
                [(str "Login", str "alice")]) k = some v)
        ∧ (∀ k, map_find [(str "Login", str "alice")] k = none →
              map_find (merge_user_settings
                [(str "Login", []), (str "Password", []), (str "Extra", str "x")]
                [(str "Login", str "alice")]) k
                = map_find [(str "Login", []), (str "Password", []),
                    (str "Extra", str "x")] k)
        ∧ (∀ r2, (fun _ : List Char => some [(str "Login", str "alice")]) r2 = none →
              get_reporter_plugin_settings
                (fun _ => [(str "Login", []), (str "Password", []), (str "Extra", str "x")])
                true (fun _ => some [(str "Login", str "alice")]) [r2]
                = [(r2, [(str "Login", []), (str "Password", []), (str "Extra", str "x")])]))
      ∧ map_find (merge_user_settings
            [(str "Login", []), (str "Password", []), (str "Extra", str "x")]
            [(str "Login", str "alice")]) (str "Login") = some (str "alice")
      ∧ map_find (merge_user_settings
            [(str "Login", []), (str "Password", []), (str "Extra", str "x")]
            [(str "Login", str "alice")]) (str "Password") = some []
      ∧ map_find (merge_user_settings
            [(str "Login", []), (str "Password", []), (str "Extra", str "x")]
            [(str "Login", str "alice")]) (str "Extra") = some (str "x") :=
  ⟨rfl, rfl, by decide,
    c8_settings_layering
      [(str "Login", []), (str "Password", []), (str "Extra", str "x")]
      [(str "Login", str "alice")]
      (fun _ => [(str "Login", []), (str "Password", []), (str "Extra", str "x")])
      (fun _ => some [(str "Login", str "alice")])
      (str "report_Bugzilla") rfl rfl (by decide),
    by decide, by decide, by decide⟩

/-! ### C9: the rating gate in interactive dispatch -/

/-- C9: in interactive dispatch, a destination whose resolved settings
declare a rating requirement (`RatingRequired` present and truthy) is
refused when the report's numeric quality rating — 4 when the rating
field is absent — is below 3: nothing is sent, the debuginfo-install
hint is printed exactly when a non-empty package field exists, and the
destination is counted as both processed (`plugins`) and failed
(`errors`) while the loop continues with the remaining destinations. -/
theorem c9_rating_gate
    (string_to_bool : List Char → Bool)
    (crash_data : crash_data_t) (s : map_string_t) (v : List Char)
    (report_ok : Bool)
    (hreq : map_find s (str "RatingRequired") = some v)
    (hreqtrue : string_to_bool v = true)
    (hrating : report_rating crash_data < 3) :
    (interactive_dispatch_step string_to_bool (report_rating crash_data)
        (get_crash_item_content_or_NULL crash_data FILENAME_PACKAGE)
        true (some s) report_ok
      = ⟨1, 1, false,
          match get_crash_item_content_or_NULL crash_data FILENAME_PACKAGE with
          | none => false
          | some p => !p.isEmpty⟩)
      ∧ (∀ rest,
           interactive_dispatch string_to_bool (report_rating crash_data)
               (get_crash_item_content_or_NULL crash_data FILENAME_PACKAGE)
               ((true, some s, report_ok) :: rest)
             = (1 + (interactive_dispatch string_to_bool (report_rating crash_data)
                      (get_crash_item_content_or_NULL crash_data FILENAME_PACKAGE)
                      rest).1,
                1 + (interactive_dispatch string_to_bool (report_rating crash_data)
                      (get_crash_item_content_or_NULL crash_data FILENAME_PACKAGE)
                      rest).2))
      ∧ (∀ cd2 : crash_data_t,
           get_crash_item_content_or_NULL cd2 FILENAME_RATING = none →
           report_rating cd2 = 4) := by
  have hdec : decide (report_rating crash_data < 3) = true := decide_eq_true hrating
  have hstep : interactive_dispatch_step string_to_bool (report_rating crash_data)
      (get_crash_item_content_or_NULL crash_data FILENAME_PACKAGE)
      true (some s) report_ok
      = ⟨1, 1, false,
          match get_crash_item_content_or_NULL crash_data FILENAME_PACKAGE with
          | none => false
          | some p => !p.isEmpty⟩ := by
    simp only [interactive_dispatch_step, Bool.not_true, Bool.false_eq_true,
      if_false, hreq, hreqtrue, hdec, Bool.and_self, if_true]
  refine ⟨hstep, ?_, ?_⟩
  · intro rest
    simp only [interactive_dispatch, hstep]
  · intro cd2 h2
    simp [report_rating, h2]

/-- Witness for C9: rating 2, a destination requiring a rating, a
non-empty package `foo-1.0` — the step refuses to send, prints the hint,
and counts the destination as processed and failed. -/
theorem c9_rating_gate_witness :
    map_find [(str "RatingRequired", str "yes")] (str "RatingRequired")
        = some (str "yes")
      ∧ (fun w => w == str "yes") (str "yes") = true
      ∧ report_rating
          [ (FILENAME_RATING, ⟨str "2", ⟨false, false, true⟩⟩)
          , (FILENAME_PACKAGE, ⟨str "foo-1.0", ⟨false, false, true⟩⟩) ] < 3
      ∧ ((interactive_dispatch_step (fun w => w == str "yes")
            (report_rating
              [ (FILENAME_RATING, ⟨str "2", ⟨false, false, true⟩⟩)
              , (FILENAME_PACKAGE, ⟨str "foo-1.0", ⟨false, false, true⟩⟩) ])
            (get_crash_item_content_or_NULL
              [ (FILENAME_RATING, ⟨str "2", ⟨false, false, true⟩⟩)
              , (FILENAME_PACKAGE, ⟨str "foo-1.0", ⟨false, false, true⟩⟩) ]
              FILENAME_PACKAGE)
            true (some [(str "RatingRequired", str "yes")]) true
          = ⟨1, 1, false,
              match get_crash_item_content_or_NULL
                  [ (FILENAME_RATING, ⟨str "2", ⟨false, false, true⟩⟩)
                  , (FILENAME_PACKAGE, ⟨str "foo-1.0", ⟨false, false, true⟩⟩) ]
                  FILENAME_PACKAGE with
              | none => false
              | some p => !p.isEmpty⟩)
        ∧ (∀ rest,
             interactive_dispatch (fun w => w == str "yes")
                 (report_rating
                   [ (FILENAME_RATING, ⟨str "2", ⟨false, false, true⟩⟩)
                   , (FILENAME_PACKAGE, ⟨str "foo-1.0", ⟨false, false, true⟩⟩) ])
                 (get_crash_item_content_or_NULL
                   [ (FILENAME_RATING, ⟨str "2", ⟨false, false, true⟩⟩)
                   , (FILENAME_PACKAGE, ⟨str "foo-1.0", ⟨false, false, true⟩⟩) ]
                   FILENAME_PACKAGE)
                 ((true, some [(str "RatingRequired", str "yes")], true) :: rest)
               = (1 + (interactive_dispatch (fun w => w == str "yes")
                        (report_rating
                          [ (FILENAME_RATING, ⟨str "2", ⟨false, false, true⟩⟩)
                          , (FILENAME_PACKAGE, ⟨str "foo-1.0", ⟨false, false, true⟩⟩) ])
                        (get_crash_item_content_or_NULL
                          [ (FILENAME_RATING, ⟨str "2", ⟨false, false, true⟩⟩)
                          , (FILENAME_PACKAGE, ⟨str "foo-1.0", ⟨false, false, true⟩⟩) ]
                          FILENAME_PACKAGE)
                        rest).1,
                  1 + (interactive_dispatch (fun w => w == str "yes")
                        (report_rating
                          [ (FILENAME_RATING, ⟨str "2", ⟨false, false, true⟩⟩)
                          , (FILENAME_PACKAGE, ⟨str "foo-1.0", ⟨false, false, true⟩⟩) ])
                        (get_crash_item_content_or_NULL
                          [ (FILENAME_RATING, ⟨str "2", ⟨false, false, true⟩⟩)
                          , (FILENAME_PACKAGE, ⟨str "foo-1.0", ⟨false, false, true⟩⟩) ]
                          FILENAME_PACKAGE)
                        rest).2))
        ∧ (∀ cd2 : crash_data_t,
             get_crash_item_content_or_NULL cd2 FILENAME_RATING = none →
             report_rating cd2 = 4)) :=
  ⟨by decide, rfl, by decide,
    c9_rating_gate (fun w => w == str "yes")
      [ (FILENAME_RATING, ⟨str "2", ⟨false, false, true⟩⟩)
      , (FILENAME_PACKAGE, ⟨str "foo-1.0", ⟨false, false, true⟩⟩) ]
      [(str "RatingRequired", str "yes")] (str "yes") true
      (by decide) rfl (by decide)⟩
